import Mathlib

/-!
# Verification of the `HousePricePredictor` prediction facade

Shallow embedding of `src/inference.py` (class `HousePricePredictor`):
the constants declared in `__init__`, the `load`, `validate_input`,
`predict` and `predict_single` methods, and the pandas operations they
rely on (`pd.DataFrame` built from a dict or a list of dicts, column
access, `.unique()`, set difference on columns and values).

Cell values are modelled by an inductive `Value` (a rational number, a
string, or NaN — the value pandas fills in for a key absent from one of
the dicts of a batch).  The deserialized artifacts (`self.model`,
`self.pipeline`) are opaque per-row functions held in `Option` slots,
`none` translating Python's `None`.  Methods that can raise return
`Except`; `load`, which mutates `self`, returns the updated state
together with an optional error, so that a raise in mid-method leaves
the partially updated state visible, exactly as in Python.
-/

namespace HousePrice

/-- A cell value: numeric, string, or NaN (pandas' filler for a key
missing from one record of a batch). -/
inductive Value where
  | num (q : ℚ)
  | str (s : String)
  | nan
deriving Repr, DecidableEq

/-- A record (Python dict): an association list from field names to values. -/
abbrev Record := List (String × Value)

/-- A pandas DataFrame: named columns and a list of rows.  A row is kept
as the record it came from; cell access looks the column name up in the
record, NaN when absent. -/
structure DataFrame where
  columns : List String
  rows : List Record
deriving Repr, DecidableEq

/-- First-occurrence deduplication, as pandas `.unique()` and the
first-seen column order of `pd.DataFrame(list_of_dicts)`. -/
def uniqueList {α : Type} [DecidableEq α] (l : List α) : List α :=
  l.foldl (fun acc x => if x ∈ acc then acc else acc ++ [x]) []

/-- `self.feature_names` from `__init__` (src/inference.py lines 36-40). -/
def feature_names : List String :=
  ["longitude", "latitude", "housing_median_age", "total_rooms",
   "total_bedrooms", "population", "households", "median_income",
   "ocean_proximity"]

/-- `self.valid_ocean_proximity` from `__init__` (src/inference.py line 41). -/
def valid_ocean_proximity : List String :=
  ["<1H OCEAN", "INLAND", "NEAR OCEAN", "NEAR BAY", "ISLAND"]

/-- The valid categorical values as cell values, for comparison against
the cells of the `ocean_proximity` column. -/
def validOceanValues : List Value :=
  valid_ocean_proximity.map Value.str

/-- The values of column `c`, one per row in row order (`data[c]` on a
frame whose columns include `c`). -/
def colValues (df : DataFrame) (c : String) : List Value :=
  df.rows.map (fun r => (r.lookup c).getD Value.nan)

/-- Column access `data[c]`: the column's values when `c` is a column,
`none` (Python `KeyError`) otherwise. -/
def getCol (df : DataFrame) (c : String) : Option (List Value) :=
  if c ∈ df.columns then some (colValues df c) else none

/-- `pd.DataFrame(list_of_dicts)`: columns are the union of the keys in
first-seen order; rows keep the list order. -/
def dfOfRecords (rs : List Record) : DataFrame :=
  { columns := uniqueList ((rs.map (fun r => r.map Prod.fst)).flatten),
    rows := rs }

/-- The errors the facade can raise on the predict path. -/
inductive PredictError where
  | notLoaded
  | shapeError
  | schemaError (missing : List String)
  | domainError (invalid : List Value) (allowed : List String)
  | keyError (column : String)
  | indexError
deriving Repr, DecidableEq

/-- The local `missing_features` of `validate_input` (line 65):
`set(self.feature_names) - set(data.columns)`, kept in schema order. -/
def missing_features (df : DataFrame) : List String :=
  feature_names.filter (fun f => decide (f ∉ df.columns))

/-- The local `invalid_values` of `validate_input` (line 70):
`set(data['ocean_proximity'].unique()) - set(self.valid_ocean_proximity)`,
kept in first-occurrence order. -/
def invalid_values (df : DataFrame) : List Value :=
  (uniqueList (colValues df "ocean_proximity")).filter
    (fun v => decide (v ∉ validOceanValues))

/-- `validate_input` (src/inference.py lines 55-75): missing-feature
check first, then the `ocean_proximity` domain check.  The column access
`data['ocean_proximity']` is modelled through `getCol`, whose `none`
branch is Python's `KeyError`. -/
def validate_input (df : DataFrame) : Except PredictError Unit :=
  if missing_features df ≠ [] then
    .error (.schemaError (missing_features df))
  else
    match getCol df "ocean_proximity" with
    | none => .error (.keyError "ocean_proximity")
    | some vs =>
      let invalid :=
        (uniqueList vs).filter (fun v => decide (v ∉ validOceanValues))
      if invalid ≠ [] then
        .error (.domainError invalid valid_ocean_proximity)
      else
        .ok ()

/-- The facade's mutable state: the two artifact slots, `None` until
`load` binds them.  The artifacts are opaque per-row functions: the
pipeline transforms a row, the model maps a prepared row to a number. -/
structure PState where
  model : Option (Record → ℚ)
  pipeline : Option (Record → Record)

/-- The shapes `predict` accepts (its `Union` annotation), plus `other`
for an argument of any further type, which the final `elif` rejects. -/
inductive Input where
  | dict (r : Record)
  | list (rs : List Record)
  | frame (df : DataFrame)
  | other

/-- The shape-normalization chain of `predict` (src/inference.py lines
119-124): dict becomes a one-row frame, list a multi-row frame in list
order, a frame passes through, anything else raises `TypeError`. -/
def normalizeInput : Input → Except PredictError DataFrame
  | .dict r => .ok (dfOfRecords [r])
  | .list rs => .ok (dfOfRecords rs)
  | .frame df => .ok df
  | .other => .error .shapeError

/-- `predict` (src/inference.py lines 77-135): not-loaded guard, shape
normalization, validation, then per-row pipeline transform and per-row
model application. -/
def predict (s : PState) (data : Input) : Except PredictError (List ℚ) :=
  match s.model, s.pipeline with
  | some m, some t =>
    match normalizeInput data with
    | .error e => .error e
    | .ok df =>
      match validate_input df with
      | .error e => .error e
      | .ok _ =>
        let prepared_data := df.rows.map t
        let predictions := prepared_data.map m
        .ok predictions
  | _, _ => .error .notLoaded

/-- The dict literal `predict_single` packs its nine arguments into
(src/inference.py lines 159-169). -/
def single_data (longitude latitude housing_median_age total_rooms
    total_bedrooms population households median_income : ℚ)
    (ocean_proximity : String) : Record :=
  [("longitude", .num longitude),
   ("latitude", .num latitude),
   ("housing_median_age", .num housing_median_age),
   ("total_rooms", .num total_rooms),
   ("total_bedrooms", .num total_bedrooms),
   ("population", .num population),
   ("households", .num households),
   ("median_income", .num median_income),
   ("ocean_proximity", .str ocean_proximity)]

/-- `predict_single` (src/inference.py lines 137-172): packs the scalars
into one dict, calls `predict`, returns `float(prediction[0])` — the
`indexError` branch is Python's `IndexError` on an empty result. -/
def predict_single (s : PState) (longitude latitude housing_median_age
    total_rooms total_bedrooms population households median_income : ℚ)
    (ocean_proximity : String) : Except PredictError ℚ :=
  match predict s (.dict (single_data longitude latitude housing_median_age
      total_rooms total_bedrooms population households median_income
      ocean_proximity)) with
  | .error e => .error e
  | .ok preds =>
    match preds with
    | p :: _ => .ok p
    | [] => .error .indexError

/-- The external world `load` runs against: whether each artifact file
exists, and what `joblib.load` returns on each — an artifact, or an
error for a raise during deserialization. -/
structure World where
  modelExists : Bool
  pipelineExists : Bool
  modelArtifact : Except Unit (Record → ℚ)
  pipelineArtifact : Except Unit (Record → Record)

/-- The errors `load` can raise. -/
inductive LoadError where
  | fileNotFound (which : String)
  | deserializeRaised
deriving Repr, DecidableEq

/-- `load` (src/inference.py lines 43-53): two existence checks, then
`self.model = joblib.load(...)` followed by `self.pipeline =
joblib.load(...)`.  The returned state is the state of `self` when the
method ends, including when it ends by a raise — a raise after the
`self.model` assignment leaves that assignment in place. -/
def load (w : World) (s : PState) : PState × Option LoadError :=
  if !w.modelExists then (s, some (.fileNotFound "model"))
  else if !w.pipelineExists then (s, some (.fileNotFound "pipeline"))
  else
    match w.modelArtifact with
    | .error _ => (s, some .deserializeRaised)
    | .ok m =>
      let s1 : PState := { s with model := some m }
      match w.pipelineArtifact with
      | .error _ => (s1, some .deserializeRaised)
      | .ok p => ({ s1 with pipeline := some p }, none)

/-- Statement-by-statement translation of the `validate_input` method
body threading the object state and the argument frame: no statement of
the body assigns to `self` or to `data`, so each branch returns them as
received, paired with the raised error or the normal return. -/
def validate_input_run (s : PState) (df : DataFrame) :
    PState × DataFrame × Except PredictError Unit :=
  if missing_features df ≠ [] then
    (s, df, .error (.schemaError (missing_features df)))
  else
    match getCol df "ocean_proximity" with
    | none => (s, df, .error (.keyError "ocean_proximity"))
    | some vs =>
      let invalid :=
        (uniqueList vs).filter (fun v => decide (v ∉ validOceanValues))
      if invalid ≠ [] then
        (s, df, .error (.domainError invalid valid_ocean_proximity))
      else
        (s, df, .ok ())

/-! ## Helper lemmas -/

theorem mem_uniqueList_foldl {α : Type} [DecidableEq α] (l : List α) (acc : List α) (a : α) :
    a ∈ l.foldl (fun acc x => if x ∈ acc then acc else acc ++ [x]) acc ↔
      a ∈ acc ∨ a ∈ l := by
  induction l generalizing acc with
  | nil => simp
  | cons x xs ih =>
    simp only [List.foldl_cons]
    by_cases hx : x ∈ acc
    · rw [if_pos hx, ih]
      simp only [List.mem_cons]
      constructor
      · rintro (h | h)
        · exact Or.inl h
        · exact Or.inr (Or.inr h)
      · rintro (h | h | h)
        · exact Or.inl h
        · exact Or.inl (h ▸ hx)
        · exact Or.inr h
    · rw [if_neg hx, ih]
      simp only [List.mem_append, List.mem_singleton, List.mem_cons]
      tauto

theorem mem_uniqueList {α : Type} [DecidableEq α] (l : List α) (a : α) :
    a ∈ uniqueList l ↔ a ∈ l := by
  rw [uniqueList, mem_uniqueList_foldl]
  simp

theorem nodup_uniqueList_foldl {α : Type} [DecidableEq α] (l : List α) (acc : List α)
    (h : acc.Nodup) :
    (l.foldl (fun acc x => if x ∈ acc then acc else acc ++ [x]) acc).Nodup := by
  induction l generalizing acc with
  | nil => simpa
  | cons x xs ih =>
    simp only [List.foldl_cons]
    by_cases hx : x ∈ acc
    · rw [if_pos hx]
      exact ih acc h
    · rw [if_neg hx]
      refine ih _ ?_
      simp [List.nodup_append, h, hx]

theorem nodup_uniqueList {α : Type} [DecidableEq α] (l : List α) :
    (uniqueList l).Nodup :=
  nodup_uniqueList_foldl l [] List.nodup_nil

/-- When every required feature is a column, `validate_input` reaches the
categorical check on the `ocean_proximity` column (no `KeyError`). -/
theorem validate_input_all_present (df : DataFrame)
    (hall : ∀ f ∈ feature_names, f ∈ df.columns) :
    validate_input df =
      (if invalid_values df ≠ [] then
        .error (.domainError (invalid_values df) valid_ocean_proximity)
      else .ok ()) := by
  have hm : missing_features df = [] := by
    rw [missing_features, List.filter_eq_nil_iff]
    intro f hf
    simpa using hall f hf
  have hoc : "ocean_proximity" ∈ df.columns :=
    hall "ocean_proximity" (by simp [feature_names])
  simp only [validate_input, hm, getCol, if_pos hoc, invalid_values, ne_eq,
    not_true_eq_false, if_false, ite_not]

/-! ## Claim theorems -/

/-- C1: on a loaded predictor whose pipeline and model are per-row
functions, `predict` on a valid batch of rows returns exactly one
numeric result per row, in row order: the result list is the row list
mapped through the pipeline then the model, so it has the same length
and the i-th result comes from the i-th row — no reordering,
deduplication or filtering. -/
theorem predict_length_and_order (m : Record → ℚ) (t : Record → Record)
    (df : DataFrame) (hv : validate_input df = .ok ()) :
    predict ⟨some m, some t⟩ (.frame df) = .ok ((df.rows.map t).map m) ∧
    (df.rows.map t).map m = df.rows.map (fun r => m (t r)) ∧
    ((df.rows.map t).map m).length = df.rows.length := by
  refine ⟨?_, by simp, by simp⟩
  simp [predict, normalizeInput, hv]

/-- Witness batch for C1: a one-row frame naming all nine features. -/
def c1df : DataFrame :=
  ⟨feature_names, [[("ocean_proximity", Value.str "INLAND")]]⟩

theorem predict_length_and_order_witness :
    validate_input c1df = .ok () ∧
    predict ⟨some (fun _ => (2 : ℚ)), some (fun r => r)⟩ (.frame c1df) =
      .ok ((c1df.rows.map (fun r => r)).map (fun _ => (2 : ℚ))) :=
  ⟨by rfl, (predict_length_and_order (fun _ => (2 : ℚ)) (fun r => r) c1df (by rfl)).1⟩

/-- C5: on a predictor whose model slot or pipeline slot is unbound,
`predict` raises the not-loaded error for every input shape — the guard
precedes shape normalization and validation, and neither artifact is
applied. -/
theorem predict_not_loaded_guard (s : PState) (data : Input)
    (h : s.model = none ∨ s.pipeline = none) :
    predict s data = .error .notLoaded := by
  obtain ⟨mo, pi⟩ := s
  cases mo with
  | none => cases pi <;> rfl
  | some m =>
    cases pi with
    | none => rfl
    | some t => rcases h with h | h <;> simp at h

theorem predict_not_loaded_guard_witness :
    predict ⟨none, none⟩ .other = .error .notLoaded :=
  predict_not_loaded_guard ⟨none, none⟩ .other (Or.inl rfl)

/-- C10: on a loaded predictor, `predict []` never yields an empty
result: the empty list normalizes to a frame with zero columns, so the
missing-feature check raises a schema error naming all nine required
features. -/
theorem predict_empty_list (m : Record → ℚ) (t : Record → Record) :
    predict ⟨some m, some t⟩ (.list []) = .error (.schemaError feature_names) := by
  rfl

/-- C3: when at least one required feature is missing from the table's
columns, `validate_input` — and hence `predict` on that table — raises a
schema error carrying exactly the set of missing required features (a
field is in the error iff it is required and absent), and never a domain
error or a column-access error, even if `ocean_proximity` itself is
among the missing columns. -/
theorem validate_missing_features (m : Record → ℚ) (t : Record → Record)
    (df : DataFrame) (h : missing_features df ≠ []) :
    validate_input df = .error (.schemaError (missing_features df)) ∧
    (∀ f, f ∈ missing_features df ↔ f ∈ feature_names ∧ f ∉ df.columns) ∧
    predict ⟨some m, some t⟩ (.frame df) =
      .error (.schemaError (missing_features df)) := by
  have h1 : validate_input df = .error (.schemaError (missing_features df)) := by
    simp only [validate_input]
    rw [if_pos h]
  refine ⟨h1, ?_, ?_⟩
  · intro f
    simp [missing_features, List.mem_filter]
  · simp [predict, normalizeInput, h1]

/-- Witness table for C3: the seven-column table obtained by dropping
`total_bedrooms` and `population` from the schema. -/
def c3df : DataFrame :=
  ⟨["longitude", "latitude", "housing_median_age", "total_rooms",
    "households", "median_income", "ocean_proximity"], [[]]⟩

theorem validate_missing_features_witness :
    validate_input c3df = .error (.schemaError ["total_bedrooms", "population"]) := by
  have h := (validate_missing_features (fun _ => 0) (fun r => r) c3df (by decide)).1
  have hfil : missing_features c3df = ["total_bedrooms", "population"] := by decide
  rw [hfil] at h
  exact h

/-- C4: when every required feature is a column but some value of the
`ocean_proximity` column lies outside the allowed domain,
`validate_input` — and hence `predict` on that table — raises a domain
error carrying every distinct offending value (a value is in the error
iff it occurs in the column and is outside the domain; the carried list
has no duplicates) together with the full five-value allowed domain, and
no row is predicted. -/
theorem validate_domain_rejection (m : Record → ℚ) (t : Record → Record)
    (df : DataFrame)
    (hall : ∀ f ∈ feature_names, f ∈ df.columns)
    (hbad : invalid_values df ≠ []) :
    validate_input df =
      .error (.domainError (invalid_values df) valid_ocean_proximity) ∧
    (∀ v, v ∈ invalid_values df ↔
      v ∈ colValues df "ocean_proximity" ∧ v ∉ validOceanValues) ∧
    (invalid_values df).Nodup ∧
    predict ⟨some m, some t⟩ (.frame df) =
      .error (.domainError (invalid_values df) valid_ocean_proximity) := by
  have h1 := validate_input_all_present df hall
  rw [if_pos hbad] at h1
  refine ⟨h1, ?_, ?_, ?_⟩
  · intro v
    simp [invalid_values, List.mem_filter, mem_uniqueList]
  · exact (nodup_uniqueList _).filter _
  · simp [predict, normalizeInput, h1]

/-- Witness table for C4: all nine features present, one row with
`ocean_proximity = "MOUNTAIN"`. -/
def c4df : DataFrame :=
  ⟨feature_names, [[("ocean_proximity", Value.str "MOUNTAIN")]]⟩

theorem validate_domain_rejection_witness :
    validate_input c4df =
      .error (.domainError [Value.str "MOUNTAIN"] valid_ocean_proximity) := by
  have h := (validate_domain_rejection (fun _ => 0) (fun r => r) c4df
    (by decide) (by decide)).1
  have hfil : invalid_values c4df = [Value.str "MOUNTAIN"] := by decide
  rw [hfil] at h
  exact h

/-- C9: a table containing every required feature, with every
`ocean_proximity` value in the allowed domain, passes validation —
extra columns beyond the feature schema are never a reason for
rejection. -/
theorem validate_accepts_extra_columns (df : DataFrame)
    (hall : ∀ f ∈ feature_names, f ∈ df.columns)
    (hdom : ∀ v ∈ colValues df "ocean_proximity", v ∈ validOceanValues) :
    validate_input df = .ok () := by
  have h1 := validate_input_all_present df hall
  have h2 : invalid_values df = [] := by
    rw [invalid_values, List.filter_eq_nil_iff]
    intro v hv
    simpa using hdom v ((mem_uniqueList _ v).mp hv)
  rw [h1, h2]
  simp

/-- Witness table for C9: the nine features plus an extra column. -/
def c9df : DataFrame :=
  ⟨feature_names ++ ["extra"],
   [[("ocean_proximity", Value.str "NEAR BAY"), ("extra", Value.num 1)]]⟩

theorem validate_accepts_extra_columns_witness :
    validate_input c9df = .ok () :=
  validate_accepts_extra_columns c9df (by decide) (by decide)

/-- C6: on a loaded predictor, `predict` normalizes by shape — a dict
becomes a one-row frame and is handled exactly as that frame, a list of
dicts becomes a frame whose rows are the list in list order and is
handled exactly as that frame, a frame passes through normalization
unchanged, and any other shape is rejected with the type-error signal
whatever the bound artifacts are. -/
theorem predict_shape_dispatch (m : Record → ℚ) (t : Record → Record)
    (r : Record) (rs : List Record) (df : DataFrame) :
    (dfOfRecords [r]).rows = [r] ∧
    predict ⟨some m, some t⟩ (.dict r) =
      predict ⟨some m, some t⟩ (.frame (dfOfRecords [r])) ∧
    (dfOfRecords rs).rows = rs ∧
    predict ⟨some m, some t⟩ (.list rs) =
      predict ⟨some m, some t⟩ (.frame (dfOfRecords rs)) ∧
    normalizeInput (.frame df) = .ok df ∧
    predict ⟨some m, some t⟩ .other = .error .shapeError :=
  ⟨rfl, rfl, rfl, rfl, rfl, rfl⟩

/-- C7: on a loaded predictor, for a record whose single-row frame
passes validation, `predict` on the single dict returns exactly one
result, and `predict_single` on the same nine scalars returns exactly
that first (and only) element — the two paths agree. -/
theorem predict_single_eq_predict (m : Record → ℚ) (t : Record → Record)
    (longitude latitude housing_median_age total_rooms total_bedrooms
     population households median_income : ℚ) (ocean_proximity : String)
    (hv : validate_input (dfOfRecords [single_data longitude latitude
      housing_median_age total_rooms total_bedrooms population households
      median_income ocean_proximity]) = .ok ()) :
    predict ⟨some m, some t⟩ (.dict (single_data longitude latitude
      housing_median_age total_rooms total_bedrooms population households
      median_income ocean_proximity)) =
      .ok [m (t (single_data longitude latitude housing_median_age
        total_rooms total_bedrooms population households median_income
        ocean_proximity))] ∧
    predict_single ⟨some m, some t⟩ longitude latitude housing_median_age
      total_rooms total_bedrooms population households median_income
      ocean_proximity =
      .ok (m (t (single_data longitude latitude housing_median_age
        total_rooms total_bedrooms population households median_income
        ocean_proximity))) := by
  have h1 : predict ⟨some m, some t⟩ (.dict (single_data longitude latitude
      housing_median_age total_rooms total_bedrooms population households
      median_income ocean_proximity)) =
      .ok [m (t (single_data longitude latitude housing_median_age
        total_rooms total_bedrooms population households median_income
        ocean_proximity))] := by
    simp only [predict, normalizeInput]
    rw [hv]
    rfl
  exact ⟨h1, by simp [predict_single, h1]⟩

theorem predict_single_eq_predict_witness :
    predict_single ⟨some (fun _ => (7 : ℚ)), some (fun r => r)⟩
      1 2 3 4 5 6 7 8 "ISLAND" =
      .ok ((fun _ => (7 : ℚ))
        ((fun r => r) (single_data 1 2 3 4 5 6 7 8 "ISLAND"))) :=
  (predict_single_eq_predict (fun _ => (7 : ℚ)) (fun r => r)
    1 2 3 4 5 6 7 8 "ISLAND" (by rfl)).2

/-- C8: `validate_input`, run as a state-threading method body, returns
the predictor state and the table exactly as received in every branch —
it only raises or returns, mutating neither the table nor the
model/pipeline slots. -/
theorem validate_input_no_mutation (s : PState) (df : DataFrame) :
    validate_input_run s df = (s, df, validate_input df) := by
  simp only [validate_input_run, validate_input]
  split
  · rfl
  · split
    · rfl
    · split
      · rfl
      · rfl

/-- C2 counterexample world: both artifact files exist, the model
artifact deserializes, the pipeline artifact's deserialization raises. -/
def c2World : World :=
  { modelExists := true, pipelineExists := true,
    modelArtifact := .ok (fun _ => 0), pipelineArtifact := .error () }

/-- A fresh predictor state: both slots unbound. -/
def c2Fresh : PState := { model := none, pipeline := none }

/-- C2 counterexample: on a fresh predictor, `load` against `c2World`
fails — the pipeline deserialization raises — yet the model slot is
left bound while the pipeline slot stays unbound: the failed load does
leave partial state, refuting the claim that after any failed load both
slots are unbound. -/
theorem load_not_atomic_counterexample :
    (load c2World c2Fresh).2 = some .deserializeRaised ∧
    (load c2World c2Fresh).1.model.isSome = true ∧
    (load c2World c2Fresh).1.pipeline = none :=
  ⟨rfl, rfl, rfl⟩

/-- C2 amended: when `load` fails because a location does not resolve
or because the model artifact fails to deserialize, the state is
untouched (both slots stay unbound on a fresh predictor); the one
non-atomic case is a pipeline deserialization failure after the model
deserialized, which leaves the model slot bound and the pipeline slot
as it was. -/
theorem load_failure_partial_state (w : World) (s : PState)
    (h : (load w s).2.isSome = true) :
    (load w s).1 = s ∨
    (∃ m, w.modelArtifact = .ok m ∧ w.pipelineArtifact = .error () ∧
      (load w s).1 = { s with model := some m }) := by
  cases hme : w.modelExists with
  | false => left; simp [load, hme]
  | true =>
    cases hpe : w.pipelineExists with
    | false => left; simp [load, hme, hpe]
    | true =>
      cases hma : w.modelArtifact with
      | error e => left; simp [load, hme, hpe, hma]
      | ok m =>
        cases hpa : w.pipelineArtifact with
        | error e =>
          right
          cases e
          exact ⟨m, rfl, rfl, by simp [load, hme, hpe, hma, hpa]⟩
        | ok p =>
          rw [load] at h
          simp [hme, hpe, hma, hpa] at h

theorem load_failure_partial_state_witness :
    (load c2World c2Fresh).1 = c2Fresh ∨
    (∃ m, c2World.modelArtifact = .ok m ∧ c2World.pipelineArtifact = .error () ∧
      (load c2World c2Fresh).1 = { c2Fresh with model := some m }) :=
  load_failure_partial_state c2World c2Fresh (by rfl)

end HousePrice
